import Mathlib

/-!
Shallow embedding of `Cache<T, const TTL: u64>` from
`src/programs/psylend-cpi/src/state/cache.rs`, together with proofs of the
specified properties.

Machine integers are modelled as `Nat`: `u64` subtraction only occurs after
the guard `current_slot < last_updated` has returned, so truncated `Nat`
subtraction coincides with the machine subtraction there, and the one
unchecked `u64` addition (`refresh_additional`) is modelled with an explicit
`% 2^64`.
-/

deriving instance DecidableEq for Except

/-- Modulus of the 64-bit unsigned integers. -/
def U64_MOD : Nat := 2 ^ 64

/-- Error type `CacheInvalidError` from cache.rs: `Expired { msg }`,
`TooNew { msg }`, `Invalidated`. -/
inductive CacheInvalidError : Type where
  | Expired (msg : String)
  | TooNew (msg : String)
  | Invalidated
deriving DecidableEq, Repr

/-- The struct `Cache<T, const TTL: u64>`: a cached value, the slot of the
last update, a manual-invalidation flag (`u8`, modelled as `Nat`), and seven
reserved padding bytes. `TTL` is a const generic, modelled as a type-level
`Nat` parameter. -/
structure Cache (T : Type) (TTL : Nat) : Type where
  value : T
  last_updated : Nat
  invalidated : Nat
  reserved : List Nat
deriving DecidableEq, Repr

namespace Cache

variable {T : Type} {TTL : Nat}

/-- `Cache::new(value, current_slot)`. -/
def new (value : T) (current_slot : Nat) : Cache T TTL :=
  { value := value
    invalidated := 0
    last_updated := current_slot
    reserved := List.replicate 7 0 }

/-- `Cache::time_msg`, the diagnostic string built by
`format!("last_updated = \x7b\x7d, time_to_live = \x7b\x7d, current_slot = \x7b\x7d", ...)`. -/
def time_msg (c : Cache T TTL) (current_slot : Nat) : String :=
  "last_updated = " ++ toString c.last_updated ++
    ", time_to_live = " ++ toString TTL ++
    ", current_slot = " ++ toString current_slot

/-- `Cache::validate_fresh(current_slot)`: `TooNew` when the queried slot
precedes `last_updated`, then `Expired` when the age exceeds `TTL`, then
`Invalidated` when the flag is nonzero, else `Ok(())`. -/
def validate_fresh (c : Cache T TTL) (current_slot : Nat) :
    Except CacheInvalidError Unit :=
  if current_slot < c.last_updated then
    .error (.TooNew (c.time_msg current_slot))
  else if current_slot - c.last_updated > TTL then
    .error (.Expired (c.time_msg current_slot))
  else if c.invalidated ≠ 0 then
    .error .Invalidated
  else
    .ok ()

/-- `Cache::try_get(current_slot)`: validates freshness, then returns the
value (the `&T` is modelled by returning the value itself). -/
def try_get (c : Cache T TTL) (current_slot : Nat) :
    Except CacheInvalidError T :=
  match c.validate_fresh current_slot with
  | .error e => .error e
  | .ok _ => .ok c.value

/-- `Cache::try_get_mut(current_slot)`: validates freshness, then returns the
mutable view. The `&mut T` is modelled as the pair of the value it points at
and the cache state after the borrow is taken (the borrow itself mutates
nothing). -/
def try_get_mut (c : Cache T TTL) (current_slot : Nat) :
    Except CacheInvalidError (T × Cache T TTL) :=
  match c.validate_fresh current_slot with
  | .error e => .error e
  | .ok _ => .ok (c.value, c)

/-- `Cache::get_stale()`: unconditionally returns the value. -/
def get_stale (c : Cache T TTL) : T :=
  c.value

/-- `Cache::get_stale_mut()`: unconditionally returns the mutable view,
modelled like `try_get_mut`'s success case. -/
def get_stale_mut (c : Cache T TTL) : T × Cache T TTL :=
  (c.value, c)

/-- Writing `v` through a `&mut T` obtained from `try_get_mut` or
`get_stale_mut`: the reference points at `self.value`, so only the `value`
field is reachable through it. -/
def write_value (c : Cache T TTL) (v : T) : Cache T TTL :=
  { c with value := v }

/-- `Cache::refresh_as(value, current_slot)`: replaces the value, clears the
flag, sets `last_updated`. -/
def refresh_as (c : Cache T TTL) (value : T) (current_slot : Nat) :
    Cache T TTL :=
  { c with value := value, invalidated := 0, last_updated := current_slot }

/-- `Cache::invalidate()`: sets the flag to 1. -/
def invalidate (c : Cache T TTL) : Cache T TTL :=
  { c with invalidated := 1 }

/-- `Cache::last_updated()` accessor. -/
def last_updated_of (c : Cache T TTL) : Nat :=
  c.last_updated

/-- `Cache::refresh(current_slot)`: clears the flag and sets `last_updated`. -/
def refresh (c : Cache T TTL) (current_slot : Nat) : Cache T TTL :=
  { c with invalidated := 0, last_updated := current_slot }

/-- `Cache::refresh_additional(additional_slots)`: clears the flag and does
`self.last_updated += additional_slots`, a `u64` addition, modelled with an
explicit wrap at `2^64`. -/
def refresh_additional (c : Cache T TTL) (additional_slots : Nat) :
    Cache T TTL :=
  { c with invalidated := 0
           last_updated := (c.last_updated + additional_slots) % U64_MOD }

/-- `Cache::refresh_to(current_slot)`: clears the flag and sets
`last_updated`. -/
def refresh_to (c : Cache T TTL) (current_slot : Nat) : Cache T TTL :=
  { c with invalidated := 0, last_updated := current_slot }

/-- The zero-initialized cache produced by the `Zeroable` impl: every field
zero; the zero value of `T` is passed explicitly. -/
def zeroed (z : T) : Cache T TTL :=
  { value := z
    last_updated := 0
    invalidated := 0
    reserved := List.replicate 7 0 }

/-- The same check as `validate_fresh`, but with the subtraction performed in
the unbounded integers, where it cannot underflow. Comparing `validate_fresh`
with this definition shows the guarded machine subtraction agrees with exact
integer subtraction. -/
def validate_fresh_int (c : Cache T TTL) (current_slot : Nat) :
    Except CacheInvalidError Unit :=
  if (current_slot : Int) < (c.last_updated : Int) then
    .error (.TooNew (c.time_msg current_slot))
  else if (current_slot : Int) - (c.last_updated : Int) > (TTL : Int) then
    .error (.Expired (c.time_msg current_slot))
  else if c.invalidated ≠ 0 then
    .error .Invalidated
  else
    .ok ()

end Cache

/-- C1: `validate_fresh` checks in a fixed order and the first applicable
failure wins: `TooNew` when `current_time < last_updated`; otherwise
`Expired` when `current_time - last_updated > TTL`; otherwise `Invalidated`
when the flag is nonzero; otherwise `Ok`. -/
theorem C1_validate_fresh_order (T : Type) (TTL : Nat) (c : Cache T TTL)
    (t : Nat) :
    (t < c.last_updated →
      c.validate_fresh t = .error (.TooNew (c.time_msg t))) ∧
    (c.last_updated ≤ t → TTL < t - c.last_updated →
      c.validate_fresh t = .error (.Expired (c.time_msg t))) ∧
    (c.last_updated ≤ t → t - c.last_updated ≤ TTL → c.invalidated ≠ 0 →
      c.validate_fresh t = .error .Invalidated) ∧
    (c.last_updated ≤ t → t - c.last_updated ≤ TTL → c.invalidated = 0 →
      c.validate_fresh t = .ok ()) := by
  refine ⟨fun h1 => ?_, fun h1 h2 => ?_, fun h1 h2 h3 => ?_,
    fun h1 h2 h3 => ?_⟩
  · simp [Cache.validate_fresh, h1]
  · simp [Cache.validate_fresh, Nat.not_lt.mpr h1, h2]
  · simp [Cache.validate_fresh, Nat.not_lt.mpr h1, Nat.not_lt.mpr h2, h3]
  · simp [Cache.validate_fresh, Nat.not_lt.mpr h1, Nat.not_lt.mpr h2, h3]

/-- Witness for C1 at concrete inputs, one per branch. -/
theorem C1_validate_fresh_order_witness :
    ((Cache.new (7 : Nat) 10 : Cache Nat 100).validate_fresh 5 =
      .error (.TooNew ((Cache.new (7 : Nat) 10 : Cache Nat 100).time_msg 5))) ∧
    ((Cache.new (7 : Nat) 10 : Cache Nat 100).validate_fresh 111 =
      .error (.Expired ((Cache.new (7 : Nat) 10 : Cache Nat 100).time_msg 111))) ∧
    ((Cache.new (7 : Nat) 10 : Cache Nat 100).invalidate.validate_fresh 50 =
      .error .Invalidated) ∧
    ((Cache.new (7 : Nat) 10 : Cache Nat 100).validate_fresh 50 = .ok ()) :=
  ⟨(C1_validate_fresh_order Nat 100 (Cache.new 7 10) 5).1 (by decide),
   (C1_validate_fresh_order Nat 100 (Cache.new 7 10) 111).2.1 (by decide)
     (by decide),
   (C1_validate_fresh_order Nat 100 (Cache.new 7 10).invalidate 50).2.2.1
     (by decide) (by decide) (by decide),
   (C1_validate_fresh_order Nat 100 (Cache.new 7 10) 50).2.2.2 (by decide)
     (by decide) (by decide)⟩

/-- C2 as stated is false: with TTL = 10 and a cache last updated at slot 0,
after `invalidate()` the slot 11 satisfies `t ≥ last_updated`, yet
`validate_fresh 11` returns `Expired`, not `Invalidated`, because the
expiry check runs before the invalidation check. -/
theorem C2_counterexample :
    (Cache.new (0 : Nat) 0 : Cache Nat 10).invalidate.last_updated ≤ 11 ∧
    (Cache.new (0 : Nat) 0 : Cache Nat 10).invalidate.validate_fresh 11 ≠
      Except.error CacheInvalidError.Invalidated := by
  decide

/-- C2 (amended): after `invalidate()`, `validate_fresh t` fails with
`Invalidated` for every `t` with `last_updated ≤ t ≤ last_updated + TTL`
(within the TTL window), and a subsequent `refresh_as` or `refresh_to`
clears this so `validate_fresh` succeeds again at the refresh slot. -/
theorem C2_invalidate_window (T : Type) (TTL : Nat) (c : Cache T TTL) :
    (∀ t, c.last_updated ≤ t → t - c.last_updated ≤ TTL →
      c.invalidate.validate_fresh t = .error .Invalidated) ∧
    (∀ v t, (c.invalidate.refresh_as v t).validate_fresh t = .ok ()) ∧
    (∀ t, (c.invalidate.refresh_to t).validate_fresh t = .ok ()) := by
  refine ⟨fun t h1 h2 => ?_, fun v t => ?_, fun t => ?_⟩
  · simp [Cache.validate_fresh, Cache.invalidate, Nat.not_lt.mpr h1,
      Nat.not_lt.mpr h2]
  · simp [Cache.validate_fresh, Cache.invalidate, Cache.refresh_as,
      Nat.sub_self]
  · simp [Cache.validate_fresh, Cache.invalidate, Cache.refresh_to,
      Nat.sub_self]

/-- Witness for the amended C2 at concrete inputs. -/
theorem C2_invalidate_window_witness :
    ((Cache.new (3 : Nat) 5 : Cache Nat 10).invalidate.validate_fresh 12 =
      .error .Invalidated) ∧
    (((Cache.new (3 : Nat) 5 : Cache Nat 10).invalidate.refresh_as 9 20
      ).validate_fresh 20 = .ok ()) ∧
    (((Cache.new (3 : Nat) 5 : Cache Nat 10).invalidate.refresh_to 20
      ).validate_fresh 20 = .ok ()) :=
  ⟨(C2_invalidate_window Nat 10 (Cache.new 3 5)).1 12 (by decide) (by decide),
   (C2_invalidate_window Nat 10 (Cache.new 3 5)).2.1 9 20,
   (C2_invalidate_window Nat 10 (Cache.new 3 5)).2.2 20⟩

/-- C3: a cache created by `new(v, t0)` validates as fresh at every `t` with
`t0 ≤ t ≤ t0 + TTL`, fails with `Expired` for every `t > t0 + TTL`, and
fails with `TooNew` for every `t < t0`. -/
theorem C3_new_window (T : Type) (TTL : Nat) (v : T) (t0 : Nat) :
    (∀ t, t0 ≤ t → t ≤ t0 + TTL →
      (Cache.new v t0 : Cache T TTL).validate_fresh t = .ok ()) ∧
    (∀ t, t0 + TTL < t →
      (Cache.new v t0 : Cache T TTL).validate_fresh t =
        .error (.Expired ((Cache.new v t0 : Cache T TTL).time_msg t))) ∧
    (∀ t, t < t0 →
      (Cache.new v t0 : Cache T TTL).validate_fresh t =
        .error (.TooNew ((Cache.new v t0 : Cache T TTL).time_msg t))) := by
  refine ⟨fun t h1 h2 => ?_, fun t h => ?_, fun t h => ?_⟩
  · simp [Cache.validate_fresh, Cache.new, Nat.not_lt.mpr h1]
    omega
  · have h1 : t0 ≤ t := by omega
    simp [Cache.validate_fresh, Cache.new, Nat.not_lt.mpr h1]
    omega
  · simp [Cache.validate_fresh, Cache.new, h]

/-- Witness for C3 at concrete inputs, one per branch. -/
theorem C3_new_window_witness :
    ((Cache.new (5 : Nat) 1000 : Cache Nat 100).validate_fresh 1100 =
      .ok ()) ∧
    ((Cache.new (5 : Nat) 1000 : Cache Nat 100).validate_fresh 1101 =
      .error
        (.Expired ((Cache.new (5 : Nat) 1000 : Cache Nat 100).time_msg 1101))) ∧
    ((Cache.new (5 : Nat) 1000 : Cache Nat 100).validate_fresh 999 =
      .error
        (.TooNew ((Cache.new (5 : Nat) 1000 : Cache Nat 100).time_msg 999))) :=
  ⟨(C3_new_window Nat 100 5 1000).1 1100 (by decide) (by decide),
   (C3_new_window Nat 100 5 1000).2.1 1101 (by decide),
   (C3_new_window Nat 100 5 1000).2.2 999 (by decide)⟩

/-- C4: `refresh_additional(d)` produces a state identical to
`refresh_to(last_updated() + d)` (the addition being the same u64 addition
in both): same value, `last_updated`, and `invalidated` fields. -/
theorem C4_refresh_additional_eq (T : Type) (TTL : Nat) (c : Cache T TTL)
    (d : Nat) :
    c.refresh_additional d =
      c.refresh_to ((c.last_updated_of + d) % U64_MOD) :=
  rfl

/-- C5: `refresh(t)` and `refresh_to(t)` produce identical states: both
clear the invalidated flag and set `last_updated = t` without touching the
payload value. -/
theorem C5_refresh_eq_refresh_to (T : Type) (TTL : Nat) (c : Cache T TTL)
    (t : Nat) :
    c.refresh t = c.refresh_to t ∧
    (c.refresh t).value = c.value ∧
    (c.refresh t).invalidated = 0 ∧
    (c.refresh t).last_updated = t :=
  ⟨rfl, rfl, rfl, rfl⟩

/-- C6: after `refresh_as(v, t)`, `try_get(t)` succeeds and returns exactly
`v`. -/
theorem C6_refresh_as_roundtrip (T : Type) (TTL : Nat) (c : Cache T TTL)
    (v : T) (t : Nat) :
    (c.refresh_as v t).try_get t = .ok v := by
  simp [Cache.try_get, Cache.refresh_as, Cache.validate_fresh, Nat.sub_self]

/-- C7: `get_stale` and `get_stale_mut` never fail (they are total) and
return the value most recently stored by `refresh_as` or by the initial
`new`, while `invalidate`, `refresh`, `refresh_to` and `refresh_additional`
leave that value untouched. -/
theorem C7_get_stale_total (T : Type) (TTL : Nat) (c : Cache T TTL) (v : T)
    (t d : Nat) :
    (Cache.new v t : Cache T TTL).get_stale = v ∧
    (c.refresh_as v t).get_stale = v ∧
    c.invalidate.get_stale = c.get_stale ∧
    (c.refresh t).get_stale = c.get_stale ∧
    (c.refresh_to t).get_stale = c.get_stale ∧
    (c.refresh_additional d).get_stale = c.get_stale ∧
    (Cache.new v t : Cache T TTL).get_stale_mut.1 = v ∧
    (c.refresh_as v t).get_stale_mut.1 = v ∧
    c.invalidate.get_stale_mut.1 = c.get_stale ∧
    c.get_stale_mut.1 = c.get_stale :=
  ⟨rfl, rfl, rfl, rfl, rfl, rfl, rfl, rfl, rfl, rfl⟩

/-- C8: when `try_get_mut(t)` succeeds, obtaining the mutable view and
writing through it leaves `last_updated` and the invalidated flag
unchanged; the same holds for `get_stale_mut`. -/
theorem C8_mut_preserves_metadata (T : Type) (TTL : Nat) (c : Cache T TTL)
    (t : Nat) (v : T) (p : T × Cache T TTL)
    (h : c.try_get_mut t = .ok p) :
    p.2.last_updated = c.last_updated ∧
    p.2.invalidated = c.invalidated ∧
    (p.2.write_value v).last_updated = c.last_updated ∧
    (p.2.write_value v).invalidated = c.invalidated ∧
    (c.get_stale_mut.2.write_value v).last_updated = c.last_updated ∧
    (c.get_stale_mut.2.write_value v).invalidated = c.invalidated := by
  have hp : p.2 = c := by
    unfold Cache.try_get_mut at h
    cases he : c.validate_fresh t <;> rw [he] at h
    · exact absurd h (by simp)
    · simp only [Except.ok.injEq] at h
      rw [← h]
  subst hp
  exact ⟨rfl, rfl, rfl, rfl, rfl, rfl⟩

/-- Witness for C8 at a concrete input. -/
theorem C8_mut_preserves_metadata_witness :
    ((((Cache.new (5 : Nat) 1000 : Cache Nat 100).try_get_mut 1000).toOption.getD
        (0, Cache.new 5 1000)).2.last_updated =
      (Cache.new (5 : Nat) 1000 : Cache Nat 100).last_updated) :=
  (C8_mut_preserves_metadata Nat 100 (Cache.new 5 1000) 1000 9
    (5, Cache.new 5 1000) (by decide)).1

/-- C9: a zero-initialized cache (all fields zero) has
`validate_fresh(t) = Ok` exactly when `t ≤ TTL`: it is a valid,
maximally-stale instance. -/
theorem C9_zeroed_fresh_iff (T : Type) (TTL : Nat) (z : T) (t : Nat) :
    (Cache.zeroed z : Cache T TTL).validate_fresh t = .ok () ↔ t ≤ TTL := by
  rcases Nat.lt_or_ge TTL t with h | h
  · simp [Cache.zeroed, Cache.validate_fresh, h, Nat.not_le.mpr h]
  · simp [Cache.zeroed, Cache.validate_fresh, Nat.not_lt.mpr h, h]

/-- C10: the guarded `u64` subtraction in `validate_fresh` never underflows:
the function agrees everywhere with `validate_fresh_int`, the variant whose
subtraction is performed in the unbounded integers; hence `validate_fresh`
(and with it `try_get` and `try_get_mut`) is total and panic-free. -/
theorem C10_no_underflow (T : Type) (TTL : Nat) (c : Cache T TTL) (t : Nat) :
    c.validate_fresh t = c.validate_fresh_int t := by
  by_cases h1 : t < c.last_updated
  · have h1i : (t : Int) < (c.last_updated : Int) := by exact_mod_cast h1
    simp [Cache.validate_fresh, Cache.validate_fresh_int, h1, h1i]
  · have h1i : ¬ ((t : Int) < (c.last_updated : Int)) := by exact_mod_cast h1
    have hle : c.last_updated ≤ t := Nat.not_lt.mp h1
    by_cases h2 : TTL < t - c.last_updated
    · have h2i : (TTL : Int) < (t : Int) - (c.last_updated : Int) := by omega
      simp [Cache.validate_fresh, Cache.validate_fresh_int, h1, h1i, h2, h2i]
    · have h2i : ¬ ((TTL : Int) < (t : Int) - (c.last_updated : Int)) := by
        omega
      simp [Cache.validate_fresh, Cache.validate_fresh_int, h1, h1i, h2, h2i]
